import Mathlib

/-!
Shallow embedding of the Deepfake-Detection backend analysis pipeline
(`backend/services/video_processor.py`, `backend/services/ai_detector.py`,
`backend/services/math_detector.py`, `backend/services/face_detector.py`,
`backend/main.py`), with theorems settling the specification claims about
score fusion, frequency analysis, frame sampling, face localization and the
persisted report.

Numeric modelling: Python floats are modelled as exact rationals (`ℚ`);
`int(x)` is truncation toward zero; `round(x, 2)` is round-half-to-even at
two decimals, as in Python 3.
-/

/-- Python `int(x)` on a float: truncation toward zero. -/
def pyInt (q : ℚ) : ℤ := if 0 ≤ q then ⌊q⌋ else ⌈q⌉

/-- Python `round(x)`: round half to even (banker's rounding). -/
def pyRound (q : ℚ) : ℤ :=
  if q - ⌊q⌋ = 1/2 then (if ⌊q⌋ % 2 = 0 then ⌊q⌋ else ⌊q⌋ + 1) else round q

/-- Python `round(x, 2)`. -/
def pyRound2 (q : ℚ) : ℚ := (pyRound (q * 100) : ℚ) / 100

/-- Python slice-bound normalization: a start/stop bound `a` on an axis of
length `n`; negative bounds count from the end, and bounds are clamped to
`[0, n]`. -/
def pyIdx (n : ℕ) (a : ℤ) : ℕ :=
  if a < 0 then (max 0 ((n : ℤ) + a)).toNat else min a.toNat n

/-- Mean of a list of rationals, `sum / length` (`0` for the empty list,
since division by zero is zero in `ℚ`). -/
def listMean (l : List ℚ) : ℚ := l.sum / l.length

/-- One persisted per-frame evidence record, `video_processor.py` lines
81-85: `{timestamp, ai_probability, fft_anomaly}`. -/
structure FrameResult where
  timestamp : ℚ
  ai_probability : ℚ
  fft_anomaly : ℚ
  deriving DecidableEq

/-- `avg_ai = fake_accumulated_score / count` (`video_processor.py` line
102): the accumulated sum of `ai_probability` over analyzed frames, divided
by their number. -/
def avgAi (frames : List FrameResult) : ℚ :=
  listMean (frames.map FrameResult.ai_probability)

/-- `avg_fft = fft_accumulated_score / count` (`video_processor.py` line
103). -/
def avgFft (frames : List FrameResult) : ℚ :=
  listMean (frames.map FrameResult.fft_anomaly)

/-- Final verdict logic, `video_processor.py` lines 98-108: if no frame was
analyzed the result is `(0, UNCERTAIN)`; otherwise
`final_score = (avg_ai * 100 * 0.7) + (avg_fft * 0.01 * 100 * 0.3)`,
`confidence = min(final_score, 99.9)`, and the verdict is `DEEPFAKE` when
`confidence > 50`, else `REAL`. Returns `(confidence, verdict)`. -/
def fuseVerdict (frames : List FrameResult) : ℚ × String :=
  if frames.length = 0 then (0, "UNCERTAIN")
  else
    let final_score :=
      avgAi frames * 100 * (7/10) + avgFft frames * (1/100) * 100 * (3/10)
    let confidence := min final_score (999/10)
    (confidence, if confidence > 50 then "DEEPFAKE" else "REAL")

theorem listMean_nonneg (l : List ℚ) (h : ∀ x ∈ l, 0 ≤ x) : 0 ≤ listMean l :=
  div_nonneg (List.sum_nonneg h) (Nat.cast_nonneg _)

theorem listMean_const (l : List ℚ) (c : ℚ) (hne : l ≠ [])
    (h : ∀ x ∈ l, x = c) : listMean l = c := by
  have hlen : (l.length : ℚ) ≠ 0 := by
    simpa [List.length_eq_zero] using hne
  have hsum : l.sum = (l.length : ℚ) * c := by
    have hl : l = List.replicate l.length c := List.eq_replicate_iff.mpr ⟨rfl, h⟩
    calc l.sum = (List.replicate l.length c).sum := by rw [← hl]
    _ = l.length • c := List.sum_replicate _ _
    _ = (l.length : ℚ) * c := nsmul_eq_mul _ _
  rw [listMean, hsum, mul_comm]
  exact mul_div_cancel_right₀ c hlen

/-- Evaluation of `fuseVerdict` on a single frame, used to instantiate the
claim theorems at concrete inputs. -/
theorem fuseVerdict_single (t a f : ℚ) :
    fuseVerdict [⟨t, a, f⟩]
      = (min (a * 100 * (7/10) + f * (1/100) * 100 * (3/10)) (999/10),
         if min (a * 100 * (7/10) + f * (1/100) * 100 * (3/10)) (999/10) > 50
         then "DEEPFAKE" else "REAL") := by
  simp [fuseVerdict, avgAi, avgFft, listMean]

/-- C1: for a completed analysis with at least one frame whose signals are
nonnegative (as the extractors guarantee), the fused confidence equals
`clamp(avg_ai*100*0.7 + avg_fft*0.3, 0, 99.9)`; and when every frame has
`ai_probability = 0.8` and `fft_anomaly = 70` the confidence is exactly
`77.0` and the verdict is `DEEPFAKE`. -/
theorem C1_fused_confidence (frames : List FrameResult) (hne : frames ≠ [])
    (hrange : ∀ f ∈ frames, 0 ≤ f.ai_probability ∧ 0 ≤ f.fft_anomaly) :
    (fuseVerdict frames).1
      = max 0 (min (avgAi frames * 100 * (7/10) + avgFft frames * (3/10))
          (999/10))
    ∧ ((∀ f ∈ frames, f.ai_probability = 4/5 ∧ f.fft_anomaly = 70) →
        (fuseVerdict frames).1 = 77 ∧ (fuseVerdict frames).2 = "DEEPFAKE") := by
  have hlen : ¬ frames.length = 0 := by
    simpa [List.length_eq_zero] using hne
  have hA : 0 ≤ avgAi frames := by
    apply listMean_nonneg
    intro x hx
    rcases List.mem_map.mp hx with ⟨f, hf, rfl⟩
    exact (hrange f hf).1
  have hF : 0 ≤ avgFft frames := by
    apply listMean_nonneg
    intro x hx
    rcases List.mem_map.mp hx with ⟨f, hf, rfl⟩
    exact (hrange f hf).2
  constructor
  · have hS : avgAi frames * 100 * (7/10) + avgFft frames * (1/100) * 100 * (3/10)
        = avgAi frames * 100 * (7/10) + avgFft frames * (3/10) := by ring
    have hpos : 0 ≤ min (avgAi frames * 100 * (7/10) + avgFft frames * (3/10))
        (999/10) := by
      apply le_min
      · positivity
      · norm_num
    simp only [fuseVerdict, if_neg hlen, hS]
    exact (max_eq_right hpos).symm
  · intro hconst
    have hmapne : frames.map FrameResult.ai_probability ≠ [] := by
      simpa [List.map_eq_nil_iff] using hne
    have hmapne' : frames.map FrameResult.fft_anomaly ≠ [] := by
      simpa [List.map_eq_nil_iff] using hne
    have hA5 : avgAi frames = 4/5 := by
      apply listMean_const _ _ hmapne
      intro x hx
      rcases List.mem_map.mp hx with ⟨f, hf, rfl⟩
      exact (hconst f hf).1
    have hF70 : avgFft frames = 70 := by
      apply listMean_const _ _ hmapne'
      intro x hx
      rcases List.mem_map.mp hx with ⟨f, hf, rfl⟩
      exact (hconst f hf).2
    have hc : (fuseVerdict frames).1 = 77 := by
      simp only [fuseVerdict, if_neg hlen, hA5, hF70]
      norm_num [min_def]
    refine ⟨hc, ?_⟩
    simp only [fuseVerdict, if_neg hlen, hA5, hF70]
    norm_num [min_def]

theorem C1_fused_confidence_witness :
    (fuseVerdict [⟨0, 4/5, 70⟩]).1 = 77
    ∧ (fuseVerdict [⟨0, 4/5, 70⟩]).2 = "DEEPFAKE" :=
  (C1_fused_confidence [⟨0, 4/5, 70⟩] (List.cons_ne_nil _ _)
    (by
      intro f hf
      rw [List.mem_singleton] at hf
      subst hf
      exact ⟨by norm_num, by norm_num⟩)).2
    (by
      intro f hf
      rw [List.mem_singleton] at hf
      subst hf
      exact ⟨rfl, rfl⟩)

/-- C9: zero analyzed frames force verdict `UNCERTAIN` with confidence `0`,
and a `REAL` or `DEEPFAKE` verdict implies at least one analyzed frame
(`video_processor.py` lines 98-108). -/
theorem C9_zero_frames (frames : List FrameResult) :
    (frames.length = 0 → fuseVerdict frames = (0, "UNCERTAIN"))
    ∧ ((fuseVerdict frames).2 = "REAL" ∨ (fuseVerdict frames).2 = "DEEPFAKE" →
        1 ≤ frames.length) := by
  constructor
  · intro h0
    simp [fuseVerdict, h0]
  · intro hv
    by_contra hlen
    have h0 : frames.length = 0 := by omega
    have : fuseVerdict frames = (0, "UNCERTAIN") := by simp [fuseVerdict, h0]
    rw [this] at hv
    rcases hv with h | h <;> exact absurd h (by decide)

theorem C9_zero_frames_witness :
    fuseVerdict [] = (0, "UNCERTAIN")
    ∧ 1 ≤ ([⟨0, 4/5, 70⟩] : List FrameResult).length :=
  ⟨(C9_zero_frames []).1 rfl,
   (C9_zero_frames [⟨0, 4/5, 70⟩]).2
     (Or.inr (by rw [fuseVerdict_single]; norm_num [min_def]))⟩

/-- C10: a fused confidence of exactly `50.0` yields verdict `REAL`: the
`DEEPFAKE` branch requires the strict inequality `confidence > 50`
(`video_processor.py` line 108). -/
theorem C10_threshold_strict (frames : List FrameResult) (hne : frames ≠ [])
    (h50 : (fuseVerdict frames).1 = 50) : (fuseVerdict frames).2 = "REAL" := by
  have hlen : ¬ frames.length = 0 := by
    simpa [List.length_eq_zero] using hne
  simp only [fuseVerdict, if_neg hlen] at h50 ⊢
  rw [h50]
  norm_num

theorem C10_threshold_strict_witness :
    (fuseVerdict [⟨0, 1/2, 50⟩]).2 = "REAL" :=
  C10_threshold_strict [⟨0, 1/2, 50⟩] (List.cons_ne_nil _ _)
    (by rw [fuseVerdict_single]; norm_num [min_def])

/-! ### Frequency-domain anomaly signal -/

/-- Elementwise map over a list with the element's index, starting at `i`. -/
def mapWithIdxFrom (f : ℕ → α → β) : ℕ → List α → List β
  | _, [] => []
  | i, a :: as => f i a :: mapWithIdxFrom f (i + 1) as

/-- Elementwise map over a list with the element's index. -/
def mapWithIdx (f : ℕ → α → β) (l : List α) : List β := mapWithIdxFrom f 0 l

/-- Row count of a 2-D array (`img.shape[0]`). -/
def matRows (m : List (List ℚ)) : ℕ := m.length

/-- Column count of a 2-D array (`img.shape[1]`). -/
def matCols (m : List (List ℚ)) : ℕ := (m.headD []).length

/-- `np.mean` of a 2-D array: the sum of all entries over `rows * cols`. -/
def matMean (m : List (List ℚ)) : ℚ :=
  (m.map List.sum).sum / ((matRows m * matCols m : ℕ) : ℚ)

/-- The in-place update
`magnitude[crow-half:crow+half, ccol-half:ccol+half] = 0` with
`crow, ccol = rows//2, cols//2`, under Python slice semantics (`pyIdx`).
`half` is `10` in `ai_detector.get_fft_score` (line 122) and `30`
(`mask_size`) in `math_detector.analyze_fft_frequency` (lines 37-38). -/
def maskCenter (half : ℕ) (m : List (List ℚ)) : List (List ℚ) :=
  let rows := matRows m
  let cols := matCols m
  let r1 := pyIdx rows (((rows / 2 : ℕ) : ℤ) - (half : ℤ))
  let r2 := pyIdx rows (((rows / 2 : ℕ) : ℤ) + (half : ℤ))
  let c1 := pyIdx cols (((cols / 2 : ℕ) : ℤ) - (half : ℤ))
  let c2 := pyIdx cols (((cols / 2 : ℕ) : ℤ) + (half : ℤ))
  mapWithIdx (fun i row =>
    mapWithIdx (fun j v =>
      if r1 ≤ i ∧ i < r2 ∧ c1 ≤ j ∧ j < c2 then 0 else v) row) m

/-- `ai_detector.get_fft_score`, lines 101-132, the frequency scorer the
pipeline calls. Lines 113-116 (`np.fft.fft2`, `np.fft.fftshift`,
`20*np.log(np.abs(fshift)+1e-10)`) turn the decoded grayscale image into
its log-magnitude spectrum; that transcendental prefix is taken as the
input here: `none` models an image `cv2.imread` cannot decode (line 111
returns `0`), `some mag` the spectrum of a decoded image. The embedded
part is lines 119-128: mask the center `±10`, take `np.mean`, and
normalize with `min(max((score - 100) * 2, 0), 100)`. -/
def get_fft_score (spectrum : Option (List (List ℚ))) : ℚ :=
  match spectrum with
  | none => 0
  | some mag =>
    let score := matMean (maskCenter 10 mag)
    min (max ((score - 100) * 2) 0) 100

/-- `math_detector.analyze_fft_frequency`, lines 5-57 (a second, unused
implementation of the same signal): mask the center `±30` (`mask_size`),
take the mean, normalize with `(mean_magnitude - 100) * 1.6`, clamp with
`max(0.0, min(normalized_score, 100.0))`, and `round(final_score, 2)`;
`0.0` when the image cannot be read (line 21) or on any exception. -/
def analyze_fft_frequency (spectrum : Option (List (List ℚ))) : ℚ :=
  match spectrum with
  | none => 0
  | some mag =>
    let mean_magnitude := matMean (maskCenter 30 mag)
    let normalized_score := (mean_magnitude - 100) * (8/5)
    pyRound2 (max 0 (min normalized_score 100))

/-- Modelled from the spec (claim C2 wording): zero a centered square of
side 60, i.e. indices within 30 of the center on both axes. -/
def maskCenterSpec (m : List (List ℚ)) : List (List ℚ) :=
  let rows := matRows m
  let cols := matCols m
  mapWithIdx (fun i row =>
    mapWithIdx (fun j v =>
      if (((rows / 2 : ℕ) : ℤ) - 30 ≤ (i : ℤ) ∧ (i : ℤ) < ((rows / 2 : ℕ) : ℤ) + 30
          ∧ ((cols / 2 : ℕ) : ℤ) - 30 ≤ (j : ℤ) ∧ (j : ℤ) < ((cols / 2 : ℕ) : ℤ) + 30)
      then 0 else v) row) m

/-- Modelled from the spec (claim C2 wording), for comparison with
`get_fft_score` and `analyze_fft_frequency`: mask 30 on each side of the
center, take the mean of the masked spectrum, rescale linearly so that a
mean of 100 maps to 0 and a mean of 160 maps to 100 (slope `5/3`), clamp
to `[0,100]`; `0` for an undecodable image. -/
def fft_score_claimed (spectrum : Option (List (List ℚ))) : ℚ :=
  match spectrum with
  | none => 0
  | some mag => min (max ((matMean (maskCenterSpec mag) - 100) * (5/3)) 0) 100

/-! ### Frame sampling stride -/

/-- `fps = cap.get(cv2.CAP_PROP_FPS) or 30` (`video_processor.py` line 60):
Python `or` replaces a falsy reported rate (`0.0`, the OpenCV value for
missing metadata) by the default 30. -/
def effectiveFps (reported : ℚ) : ℚ := if reported = 0 then 30 else reported

/-- `skip_rate = int(fps) * 2` (`video_processor.py` line 61): the
sampling stride in frames, two seconds' worth of truncated frame rate. -/
def skip_rate (reported : ℚ) : ℤ := pyInt (effectiveFps reported) * 2

/-! ### Learned-classifier signal -/

/-- Python `str.lower()` (ASCII as used by the classifier labels). -/
def pyLower (s : String) : String := String.mk (s.toList.map Char.toLower)

/-- Whether `pat` matches at the front of `l`. -/
def matchFront : List Char → List Char → Bool
  | [], _ => true
  | _ :: _, [] => false
  | p :: ps, c :: cs => (p == c) && matchFront ps cs

/-- Whether `pat` occurs as a contiguous run inside `l`
(Python `pat in s`). -/
def hasSub (pat : List Char) : List Char → Bool
  | [] => matchFront pat []
  | c :: cs => matchFront pat (c :: cs) || hasSub pat cs

/-- Python substring test `pat in s`. -/
def pyInStr (pat s : String) : Bool := hasSub pat.toList s.toList

/-- The top-1 normalization shared by both classifier strategies of
`ai_detector.get_ai_prediction` (lines 64-74, cloud API, and lines 83-90,
local pipeline): lower-case the top label, return the score if the label
contains `"fake"` or `"deepfake"`, else `1 - score`. -/
def get_ai_prediction_top1 (label : String) (score : ℚ) : ℚ :=
  let l := pyLower label
  if pyInStr "fake" l || pyInStr "deepfake" l then score else 1 - score

/-- C2 (amended): `get_fft_score`, the scorer the pipeline calls, returns
`0` for an undecodable image, always lies in `[0,100]`, and is the clamped
affine rescale — with slope 2, so a masked-spectrum mean of 100 maps to 0
and a mean of 150 (not 160) maps to 100 — of the mean of the spectrum
masked only 10 (not 30) units on each side of the center.
`analyze_fft_frequency` (unused by the pipeline) likewise returns `0` for
an undecodable image. -/
theorem C2_fft_characterization (mag : List (List ℚ)) :
    get_fft_score none = 0
    ∧ analyze_fft_frequency none = 0
    ∧ 0 ≤ get_fft_score (some mag)
    ∧ get_fft_score (some mag) ≤ 100
    ∧ (matMean (maskCenter 10 mag) ≤ 100 → get_fft_score (some mag) = 0)
    ∧ (100 ≤ matMean (maskCenter 10 mag) → matMean (maskCenter 10 mag) ≤ 150 →
        get_fft_score (some mag) = (matMean (maskCenter 10 mag) - 100) * 2)
    ∧ (150 ≤ matMean (maskCenter 10 mag) → get_fft_score (some mag) = 100) := by
  have hval : get_fft_score (some mag)
      = min (max ((matMean (maskCenter 10 mag) - 100) * 2) 0) 100 := rfl
  refine ⟨rfl, rfl, ?_, ?_, ?_, ?_, ?_⟩
  · rw [hval]
    exact le_min (le_max_right _ _) (by norm_num)
  · rw [hval]
    exact min_le_right _ _
  · intro h
    rw [hval, max_eq_right (by linarith), min_eq_left (by norm_num)]
  · intro h1 h2
    rw [hval, max_eq_left (by linarith), min_eq_left (by linarith)]
  · intro h
    rw [hval, max_eq_left (by linarith), min_eq_right (by linarith)]

theorem C2_fft_characterization_witness :
    get_fft_score (some [List.replicate 20 (0:ℚ) ++ [2310]]) = 20 := by
  have hm : matMean (maskCenter 10 [List.replicate 20 (0:ℚ) ++ [2310]]) = 110 := by
    rw [show maskCenter 10 [List.replicate 20 (0:ℚ) ++ [2310]]
        = [List.replicate 20 (0:ℚ) ++ [2310]] from rfl]
    norm_num [matMean, matRows, matCols, List.sum_replicate, List.replicate]
  have h := (C2_fft_characterization [List.replicate 20 (0:ℚ) ++ [2310]]).2.2.2.2.2.1
    (by rw [hm]; norm_num) (by rw [hm]; norm_num)
  rw [h, hm]
  norm_num

/-- C2 counterexample: on a 1×21 spectrum that is zero except for value
2730 at column 20, the code (`get_fft_score`, mask ±10, slope 2) scores 60
while the claimed algorithm (mask ±30, rescale 100↦0 and 160↦100) scores 0;
and on a 1×61 spectrum that is zero except for 9760 at column 60, the
mask-±30 variant `analyze_fft_frequency` (slope 1.6) scores 96 at a masked
mean of exactly 160, where the claimed rescale requires 100. -/
theorem C2_fft_cex :
    get_fft_score (some [List.replicate 20 (0:ℚ) ++ [2730]]) = 60
    ∧ fft_score_claimed (some [List.replicate 20 (0:ℚ) ++ [2730]]) = 0
    ∧ (60 : ℚ) ≠ 0
    ∧ analyze_fft_frequency (some [List.replicate 60 (0:ℚ) ++ [9760]]) = 96
    ∧ fft_score_claimed (some [List.replicate 60 (0:ℚ) ++ [9760]]) = 100
    ∧ (96 : ℚ) ≠ 100 := by
  refine ⟨?_, ?_, by norm_num, ?_, ?_, by norm_num⟩
  · have hm : matMean (maskCenter 10 [List.replicate 20 (0:ℚ) ++ [2730]]) = 130 := by
      rw [show maskCenter 10 [List.replicate 20 (0:ℚ) ++ [2730]]
          = [List.replicate 20 (0:ℚ) ++ [2730]] from rfl]
      norm_num [matMean, matRows, matCols, List.sum_replicate, List.replicate]
    have hval : get_fft_score (some [List.replicate 20 (0:ℚ) ++ [2730]])
        = min (max ((matMean (maskCenter 10 [List.replicate 20 (0:ℚ) ++ [2730]])
            - 100) * 2) 0) 100 := rfl
    rw [hval, hm]
    norm_num [min_def, max_def]
  · have hval : fft_score_claimed (some [List.replicate 20 (0:ℚ) ++ [2730]])
        = min (max ((matMean (maskCenterSpec [List.replicate 20 (0:ℚ) ++ [2730]])
            - 100) * (5/3)) 0) 100 := rfl
    rw [hval, show maskCenterSpec [List.replicate 20 (0:ℚ) ++ [2730]]
        = [List.replicate 21 (0:ℚ)] from rfl]
    norm_num [matMean, matRows, matCols, List.sum_replicate, List.replicate,
      min_def, max_def]
  · have hm : matMean (maskCenter 30 [List.replicate 60 (0:ℚ) ++ [9760]]) = 160 := by
      rw [show maskCenter 30 [List.replicate 60 (0:ℚ) ++ [9760]]
          = [List.replicate 60 (0:ℚ) ++ [9760]] from rfl]
      norm_num [matMean, matRows, matCols, List.sum_replicate, List.replicate]
    have hval : analyze_fft_frequency (some [List.replicate 60 (0:ℚ) ++ [9760]])
        = pyRound2 (max 0 (min ((matMean (maskCenter 30
            [List.replicate 60 (0:ℚ) ++ [9760]]) - 100) * (8/5)) 100)) := rfl
    rw [hval, hm]
    norm_num [pyRound2, pyRound, min_def, max_def]
  · have hval : fft_score_claimed (some [List.replicate 60 (0:ℚ) ++ [9760]])
        = min (max ((matMean (maskCenterSpec [List.replicate 60 (0:ℚ) ++ [9760]])
            - 100) * (5/3)) 0) 100 := rfl
    rw [hval, show maskCenterSpec [List.replicate 60 (0:ℚ) ++ [9760]]
        = [List.replicate 60 (0:ℚ) ++ [9760]] from rfl]
    norm_num [matMean, matRows, matCols, List.sum_replicate, List.replicate,
      min_def, max_def]

/-- C3 (amended): the stride is `int(fps)*2` (truncation, not rounding):
it is at least 2 for every reported rate `fps ≥ 1`; a reported rate of 0
(missing metadata) is replaced by the default 30, giving stride 60; but for
reported rates strictly between 0 and 1 the stride is 0, so the sampling
loop computes `current_frame % 0`. -/
theorem C3_stride (fps : ℚ) :
    (1 ≤ fps → 2 ≤ skip_rate fps)
    ∧ skip_rate 0 = 60
    ∧ (0 < fps → fps < 1 → skip_rate fps = 0) := by
  refine ⟨?_, ?_, ?_⟩
  · intro h1
    have hne : ¬ fps = 0 := by
      intro h
      rw [h] at h1
      norm_num at h1
    rw [skip_rate, effectiveFps, if_neg hne, pyInt, if_pos (by linarith)]
    have hfl : (1:ℤ) ≤ ⌊fps⌋ := by
      rw [Int.le_floor]
      exact_mod_cast h1
    omega
  · rw [skip_rate, effectiveFps, if_pos rfl, pyInt, if_pos (by norm_num)]
    norm_num
  · intro h0 h1
    rw [skip_rate, effectiveFps, if_neg (ne_of_gt h0), pyInt, if_pos (le_of_lt h0)]
    rw [Int.floor_eq_zero_iff.mpr (Set.mem_Ico.mpr ⟨le_of_lt h0, h1⟩)]
    norm_num

theorem C3_stride_witness :
    2 ≤ skip_rate 30 ∧ skip_rate 0 = 60 ∧ skip_rate (1/2) = 0 :=
  ⟨(C3_stride 30).1 (by norm_num), (C3_stride 0).2.1,
   (C3_stride (1/2)).2.2 (by norm_num) (by norm_num)⟩

/-- C3 counterexample: at reported rate `0.5` (a valid `fps > 0`) the code
stride `int(0.5)*2 = 0` differs from the claimed `round(0.5*2) = 1` and is
not `≥ 1`, so `current_frame % skip_rate` is a modulus by zero. -/
theorem C3_stride_cex :
    skip_rate (1/2) = 0 ∧ pyRound ((1/2 : ℚ) * 2) = 1 ∧ ¬ (1 ≤ skip_rate (1/2)) := by
  have h : skip_rate (1/2) = 0 := by
    rw [skip_rate, effectiveFps, if_neg (by norm_num), pyInt, if_pos (by norm_num)]
    rw [Int.floor_eq_zero_iff.mpr (Set.mem_Ico.mpr ⟨by norm_num, by norm_num⟩)]
    norm_num
  refine ⟨h, by norm_num [pyRound], by rw [h]; norm_num⟩

/-- C8: the classifier-output normalization returns the score exactly when
the lower-cased top label contains `"fake"` (hence also for `"deepfake"`),
and `1 - score` otherwise, so it stays in `[0,1]` for scores in `[0,1]`;
`{label: "fake", confidence: 0.9}` maps to `0.9` and
`{label: "real", confidence: 0.9}` to `0.1`. -/
theorem C8_label_normalization (label : String) (score : ℚ)
    (h0 : 0 ≤ score) (h1 : score ≤ 1) :
    ((pyInStr "fake" (pyLower label) || pyInStr "deepfake" (pyLower label)) = true
      → get_ai_prediction_top1 label score = score)
    ∧ ((pyInStr "fake" (pyLower label) || pyInStr "deepfake" (pyLower label)) = false
      → get_ai_prediction_top1 label score = 1 - score)
    ∧ 0 ≤ get_ai_prediction_top1 label score
    ∧ get_ai_prediction_top1 label score ≤ 1
    ∧ get_ai_prediction_top1 "fake" (9/10) = 9/10
    ∧ get_ai_prediction_top1 "real" (9/10) = 1/10 := by
  have hfake : get_ai_prediction_top1 "fake" (9/10) = 9/10 := by
    have hc : (pyInStr "fake" (pyLower "fake")
        || pyInStr "deepfake" (pyLower "fake")) = true := by decide
    simp [get_ai_prediction_top1, hc]
  have hreal : get_ai_prediction_top1 "real" (9/10) = 1/10 := by
    have hc : (pyInStr "fake" (pyLower "real")
        || pyInStr "deepfake" (pyLower "real")) = false := by decide
    simp [get_ai_prediction_top1, hc]
    norm_num
  refine ⟨?_, ?_, ?_, ?_, hfake, hreal⟩
  · intro hc
    simp [get_ai_prediction_top1, hc]
  · intro hc
    simp [get_ai_prediction_top1, hc]
  · cases hb : (pyInStr "fake" (pyLower label) || pyInStr "deepfake" (pyLower label))
    · simpa [get_ai_prediction_top1, hb] using (by linarith : (0:ℚ) ≤ 1 - score)
    · simpa [get_ai_prediction_top1, hb] using h0
  · cases hb : (pyInStr "fake" (pyLower label) || pyInStr "deepfake" (pyLower label))
    · simpa [get_ai_prediction_top1, hb] using (by linarith : 1 - score ≤ (1:ℚ))
    · simpa [get_ai_prediction_top1, hb] using h1

theorem C8_label_normalization_witness :
    get_ai_prediction_top1 "fake" (9/10) = 9/10
    ∧ get_ai_prediction_top1 "real" (9/10) = 1/10 :=
  ⟨(C8_label_normalization "fake" (9/10) (by norm_num) (by norm_num)).2.2.2.2.1,
   (C8_label_normalization "real" (9/10) (by norm_num) (by norm_num)).2.2.2.2.2⟩

/-! ### Persisted report and results endpoint -/

/-- A JSON-like document value, to state field-level (wire-contract)
properties of the persisted report. -/
inductive JVal where
  | jstr (s : String)
  | jnum (q : ℚ)
  | jarr (elems : List JVal)
  | jobj (fields : List (String × JVal))

/-- One `frame_data` element as appended by the loop
(`video_processor.py` lines 81-85). -/
def frameJson (f : FrameResult) : JVal :=
  .jobj [("timestamp", .jnum f.timestamp),
         ("ai_probability", .jnum f.ai_probability),
         ("fft_anomaly", .jnum f.fft_anomaly)]

/-- The report dict built at `video_processor.py` lines 111-118, with its
keys in source order: `scan_id`, `verdict`, `confidence_score` (rounded to
2 decimals), `total_frames_analyzed`, `frame_data`, `created_at`. -/
def mkReportDict (scan_id : String) (frames : List FrameResult)
    (created_at : ℚ) : List (String × JVal) :=
  [("scan_id", .jstr scan_id),
   ("verdict", .jstr (fuseVerdict frames).2),
   ("confidence_score", .jnum (pyRound2 (fuseVerdict frames).1)),
   ("total_frames_analyzed", .jnum (frames.length : ℚ)),
   ("frame_data", .jarr (frames.map frameJson)),
   ("created_at", .jnum created_at)]

/-- The inserts `process_video_pipeline` issues to the store, keyed by
scan id. On container-open failure (`video_processor.py` lines 55-58,
modelled by `opened = none`) the function returns before building any
report, so nothing is inserted; on a completed loop (`some frames`) the
report is inserted once if the DB is connected (lines 120-128). -/
def pipelineInserts (scan_id : String) (opened : Option (List FrameResult))
    (created_at : ℚ) (dbConnected : Bool) :
    List (String × List (String × JVal)) :=
  match opened with
  | none => []
  | some frames =>
    if dbConnected then [(scan_id, mkReportDict scan_id frames created_at)]
    else []

/-- Key lookup in a JSON-like document. -/
def lookupField (doc : List (String × JVal)) (key : String) : Option JVal :=
  (doc.find? (fun kv => kv.1 == key)).map Prod.snd

/-- `GET /api/results/{scan_id}` (`main.py` lines 100-114): return the
stored report for the scan id when one exists, else the fallback body
`{"status": "PROCESSING", "message": ..., "scan_id": ...}`. -/
def get_results (store : List (String × List (String × JVal)))
    (scan_id : String) : List (String × JVal) :=
  match store.find? (fun e => e.1 == scan_id) with
  | some e => e.2
  | none => [("status", .jstr "PROCESSING"),
             ("message", .jstr "Analysis in progress..."),
             ("scan_id", .jstr scan_id)]

/-- C4 (amended): when the source container cannot be opened the pipeline
returns early, so the store receives no insert for that scan id; but no
`FAILED` status is recorded anywhere — a results query for that scan falls
through to the fallback body and reports `PROCESSING` indefinitely. -/
theorem C4_open_failure (scan_id : String) (created_at : ℚ) (dbc : Bool) :
    pipelineInserts scan_id none created_at dbc = []
    ∧ lookupField
        (get_results (pipelineInserts scan_id none created_at dbc) scan_id)
        "status"
      = some (.jstr "PROCESSING") :=
  ⟨rfl, rfl⟩

/-- C4 counterexample: after an open failure the store is empty and the
only observable status for the scan is `PROCESSING`, which is not the
claimed `FAILED`. -/
theorem C4_open_failure_cex :
    pipelineInserts "scan1" none 0 true = []
    ∧ lookupField (get_results (pipelineInserts "scan1" none 0 true) "scan1")
        "status" = some (.jstr "PROCESSING")
    ∧ JVal.jstr "PROCESSING" ≠ JVal.jstr "FAILED" := by
  refine ⟨rfl, rfl, ?_⟩
  intro h
  injection h with h'
  exact absurd h' (by decide)

/-- C5 (amended): every report written by the pipeline carries exactly the
keys `scan_id`, `verdict`, `confidence_score` (the fused confidence rounded
to 2 decimals), `total_frames_analyzed`, `frame_data` (whose elements are
objects with keys `timestamp`, `ai_probability`, `fft_anomaly`), and
`created_at` — the claimed wire contract minus `status`, which is absent. -/
theorem C5_report_fields (scan_id : String) (frames : List FrameResult)
    (created_at : ℚ) :
    (mkReportDict scan_id frames created_at).map Prod.fst
      = ["scan_id", "verdict", "confidence_score", "total_frames_analyzed",
         "frame_data", "created_at"]
    ∧ lookupField (mkReportDict scan_id frames created_at) "status" = none
    ∧ lookupField (mkReportDict scan_id frames created_at) "confidence_score"
        = some (.jnum (pyRound2 (fuseVerdict frames).1))
    ∧ lookupField (mkReportDict scan_id frames created_at) "total_frames_analyzed"
        = some (.jnum (frames.length : ℚ))
    ∧ lookupField (mkReportDict scan_id frames created_at) "frame_data"
        = some (.jarr (frames.map frameJson))
    ∧ lookupField (mkReportDict scan_id frames created_at) "created_at"
        = some (.jnum created_at)
    ∧ ∀ f : FrameResult, frameJson f
        = .jobj [("timestamp", .jnum f.timestamp),
                 ("ai_probability", .jnum f.ai_probability),
                 ("fft_anomaly", .jnum f.fft_anomaly)] :=
  ⟨rfl, rfl, rfl, rfl, rfl, rfl, fun _ => rfl⟩

/-- C5 counterexample: the concrete report for an empty run has exactly six
keys and no `status` key, though the claim requires one. -/
theorem C5_status_missing_cex :
    lookupField (mkReportDict "scan1" [] 0) "status" = none
    ∧ (mkReportDict "scan1" [] 0).map Prod.fst
      = ["scan_id", "verdict", "confidence_score", "total_frames_analyzed",
         "frame_data", "created_at"]
    ∧ "status" ∉ (mkReportDict "scan1" [] 0).map Prod.fst := by
  refine ⟨rfl, rfl, ?_⟩
  rw [show (mkReportDict "scan1" [] 0).map Prod.fst
      = ["scan_id", "verdict", "confidence_score", "total_frames_analyzed",
         "frame_data", "created_at"] from rfl]
  decide

/-! ### Face locator -/

/-- A MediaPipe relative bounding box
(`detection.location_data.relative_bounding_box`). -/
structure RelBBox where
  xmin : ℚ
  ymin : ℚ
  w : ℚ
  h : ℚ
  deriving DecidableEq

/-- A Haar-cascade detection `(x, y, w, h)` in pixels. -/
structure IBBox where
  x : ℤ
  y : ℤ
  w : ℤ
  h : ℤ
  deriving DecidableEq

/-- The crop region `frame[y1:y2, x1:x2]` chosen by the locator. -/
structure Rect where
  y1 : ℤ
  x1 : ℤ
  y2 : ℤ
  x2 : ℤ
  deriving DecidableEq

/-- Outcome of invoking one detection strategy on a frame: it either raises
(caught by the strategy's `except` block) or returns a detection list. -/
inductive DetectOutcome (α : Type) where
  | throws
  | found (detections : List α)
  deriving DecidableEq

/-- Module state of `face_detector.py` (lines 5-24): if importing
`mediapipe` succeeds, `detector` is set and `face_cascade` is never
assigned (it is only assigned inside the `except ImportError` branch); if
it fails, `detector = None` and `face_cascade` is a loaded cascade
(`loaded`) or `None`. -/
inductive DetectorConfig where
  | mediapipeMode (outcome : DetectOutcome RelBBox)
  | cascadeMode (loaded : Bool) (outcome : DetectOutcome IBBox)
  deriving DecidableEq

/-- The MediaPipe crop box (`face_detector.py` lines 43-54): scale the
relative box to pixels with `int(...)`, pad by `int(w*0.2)` horizontally
and `int(h*0.2)` vertically, clamp to the frame. -/
def mpRect (b : RelBBox) (height width : ℕ) : Rect :=
  let x := pyInt (b.xmin * (width : ℚ))
  let y := pyInt (b.ymin * (height : ℚ))
  let w := pyInt (b.w * (width : ℚ))
  let h := pyInt (b.h * (height : ℚ))
  let x_pad := pyInt ((w : ℚ) * (1/5))
  let y_pad := pyInt ((h : ℚ) * (1/5))
  ⟨max 0 (y - y_pad), max 0 (x - x_pad),
   min (height : ℤ) (y + h + y_pad), min (width : ℤ) (x + w + x_pad)⟩

/-- The Haar crop box (`face_detector.py` lines 64-69): a single pad
`int(w*0.2)` on both axes, clamped to the frame. -/
def haarRect (b : IBBox) (height width : ℕ) : Rect :=
  let pad := pyInt ((b.w : ℚ) * (1/5))
  ⟨max 0 (b.y - pad), max 0 (b.x - pad),
   min (height : ℤ) (b.y + b.h + pad), min (width : ℤ) (b.x + b.w + pad)⟩

/-- The center-crop fallback (`face_detector.py` lines 75-79): the central
50%×50% region `frame[y1:y1+h_size, x1:x1+w_size]`, with no padding. -/
def centerRect (height width : ℕ) : Rect :=
  let h_center : ℤ := ((height / 2 : ℕ) : ℤ)
  let w_center : ℤ := ((width / 2 : ℕ) : ℤ)
  let h_size : ℤ := ((height / 2 : ℕ) : ℤ)
  let w_size : ℤ := ((width / 2 : ℕ) : ℤ)
  let y1 := max 0 (h_center - h_size / 2)
  let x1 := max 0 (w_center - w_size / 2)
  ⟨y1, x1, y1 + h_size, x1 + w_size⟩

/-- `face_detector.crop_face_advanced` (lines 26-79). Returns
`.ok (crop, found)`; `.error` models an exception escaping the function.
With `cv2` missing it returns `(None, False)` (lines 31-32). In
`mediapipeMode`, a nonempty detection list yields the MediaPipe crop; an
empty list or a caught exception falls through to line 59
`if face_cascade:`, where `face_cascade` is an unbound name (it is only
assigned when the mediapipe import fails), raising `NameError`. In
`cascadeMode`, a loaded cascade with a nonempty detection yields the Haar
crop; everything else reaches the center-crop fallback. -/
def crop_face_advanced (cv2Avail : Bool) (cfg : DetectorConfig)
    (height width : ℕ) : Except String (Option Rect × Bool) :=
  if cv2Avail then
    match cfg with
    | .mediapipeMode outcome =>
      match outcome with
      | .found (b :: _) => .ok (some (mpRect b height width), true)
      | _ => .error "NameError: name face_cascade is not defined"
    | .cascadeMode loaded outcome =>
      if loaded then
        match outcome with
        | .found (b :: _) => .ok (some (haarRect b height width), true)
        | _ => .ok (some (centerRect height width), true)
      else .ok (some (centerRect height width), true)
  else .ok (none, false)

/-- Modelled from the spec (claim C7 wording): the center-crop fallback
with the detector paths' 20% padding rule applied to the central 50%×50%
box, for comparison with `centerRect`. -/
def paddedCenterRect (height width : ℕ) : Rect :=
  let h_size : ℤ := ((height / 2 : ℕ) : ℤ)
  let w_size : ℤ := ((width / 2 : ℕ) : ℤ)
  let y : ℤ := max 0 (((height / 2 : ℕ) : ℤ) - h_size / 2)
  let x : ℤ := max 0 (((width / 2 : ℕ) : ℤ) - w_size / 2)
  let y_pad := pyInt ((h_size : ℚ) * (1/5))
  let x_pad := pyInt ((w_size : ℚ) * (1/5))
  ⟨max 0 (y - y_pad), max 0 (x - x_pad),
   min (height : ℤ) (y + h_size + y_pad), min (width : ℤ) (x + w_size + x_pad)⟩

/-- C6: with `cv2` and `mediapipe` available, a frame on which MediaPipe
yields no detection (or raises, which is caught) reaches
`if face_cascade:` with `face_cascade` unbound and the locator raises
`NameError` instead of demoting to the next strategy; with `cv2` missing it
returns `found = false`. Both contradict the claim that failures demote and
that the locator always returns `found = true` without raising. -/
theorem C6_locator_raises :
    crop_face_advanced true (.mediapipeMode (.found [])) 224 224
      = .error "NameError: name face_cascade is not defined"
    ∧ crop_face_advanced true (.mediapipeMode .throws) 224 224
      = .error "NameError: name face_cascade is not defined"
    ∧ crop_face_advanced false (.cascadeMode true (.found [⟨10, 10, 50, 50⟩])) 224 224
      = .ok (none, false) :=
  ⟨rfl, rfl, rfl⟩

/-- C7 (amended): whenever the cascade-mode locator reaches the fallback
(no loaded cascade, no detection, or a caught exception), it returns the
central 50%×50% region with `found = true`, applying no padding, and the
result has exactly the shape of a real detection result (no distinguishing
note). -/
theorem C7_fallback (height width : ℕ) (loaded : Bool)
    (o : DetectOutcome IBBox)
    (hfb : loaded = false ∨ o = .found [] ∨ o = .throws) :
    crop_face_advanced true (.cascadeMode loaded o) height width
      = .ok (some (centerRect height width), true)
    ∧ (centerRect height width).y2 - (centerRect height width).y1
        = ((height / 2 : ℕ) : ℤ)
    ∧ (centerRect height width).x2 - (centerRect height width).x1
        = ((width / 2 : ℕ) : ℤ) := by
  refine ⟨?_, by simp [centerRect], by simp [centerRect]⟩
  rcases hfb with h | h | h
  · subst h
    rfl
  · subst h
    cases loaded <;> rfl
  · subst h
    cases loaded <;> rfl

theorem C7_fallback_witness :
    crop_face_advanced true (.cascadeMode false (.found [])) 100 100
      = .ok (some (centerRect 100 100), true)
    ∧ (centerRect 100 100).y2 - (centerRect 100 100).y1 = 50 := by
  have h := C7_fallback 100 100 false (.found []) (Or.inl rfl)
  refine ⟨h.1, ?_⟩
  rw [h.2.1]
  norm_num

/-- C7 counterexample: on a 100×100 frame the fallback crop is
`frame[25:75, 25:75]`, identical to what the MediaPipe detector path
produces for the relative box `(0.32, 0.32, 0.36, 0.36)` — so the result
carries no distinguishing note — and it differs from the 20%-padded
central box `frame[15:85, 15:85]` the claimed padding rule would give. -/
theorem C7_fallback_cex :
    crop_face_advanced true (.cascadeMode false (.found [])) 100 100
      = .ok (some ⟨25, 25, 75, 75⟩, true)
    ∧ crop_face_advanced true
        (.mediapipeMode (.found [⟨8/25, 8/25, 9/25, 9/25⟩])) 100 100
      = .ok (some ⟨25, 25, 75, 75⟩, true)
    ∧ paddedCenterRect 100 100 = ⟨15, 15, 85, 85⟩
    ∧ (⟨25, 25, 75, 75⟩ : Rect) ≠ ⟨15, 15, 85, 85⟩ := by
  have h36 : pyInt ((9/25 : ℚ) * ((100:ℕ) : ℚ)) = 36 := by norm_num [pyInt]
  have h32 : pyInt ((8/25 : ℚ) * ((100:ℕ) : ℚ)) = 32 := by norm_num [pyInt]
  have h7 : pyInt (((36:ℤ) : ℚ) * (1/5)) = 7 := by
    rw [pyInt, if_pos (by norm_num)]
    rw [show ((36:ℤ) : ℚ) * (1/5) = 36/5 by norm_num]
    exact Int.floor_eq_iff.mpr ⟨by norm_num, by norm_num⟩
  have hmp : mpRect ⟨8/25, 8/25, 9/25, 9/25⟩ 100 100 = ⟨25, 25, 75, 75⟩ := by
    rw [mpRect]
    simp only [h36, h32, h7]
    rfl
  have h10 : pyInt ((((100 / 2 : ℕ) : ℤ) : ℚ) * (1/5)) = 10 := by
    norm_num [pyInt]
  refine ⟨rfl, ?_, ?_, by decide⟩
  · show Except.ok (some (mpRect ⟨8/25, 8/25, 9/25, 9/25⟩ 100 100), true) = _
    rw [hmp]
  · rw [paddedCenterRect]
    simp only [h10]
    rfl
